import Mathlib

set_option maxRecDepth 100000

/-!
Verification of the ShadowTrace core pipeline and its web frontend.

The repository ships the PostgreSQL schema (`database/schema.sql`) and the
React frontend (`frontend/src`).  The backend pipeline (Export Parser, Gap
Detector, Suspicion Scorer, Inference Orchestrator) is described by the
specification; the definitions below that embed it are marked
`Modelled from the spec:` and follow §4 of the specification word by word.
Frontend functions (`getSuspicionLevel`, `gapsBySeq`, `handleDrop`,
`handleChange`, the gap-card rendering) are translated directly from the
JSX sources.  All scores, timestamps and similarities are embedded as
rationals.
-/

namespace ShadowTrace

/-- Message kind: `text | media | system` (schema column `message_type`). -/
inductive MsgType where
  | text
  | media
  | system
deriving DecidableEq, Repr

/-- One utterance, mirroring the `messages` table of `database/schema.sql`:
sender, nullable content, timestamp, dense sequence number, kind, deleted
flag, word count, has-media flag. -/
structure Message where
  sender : String
  content : Option String
  timestamp : ℚ
  sequenceNumber : ℕ
  messageType : MsgType
  isDeleted : Bool
  wordCount : ℕ
  hasMedia : Bool
deriving DecidableEq, Repr

/-- Modelled from the spec: the Export Parser's line classifier (§4.1) is not
under `src/`; a raw export line either matches the line-start pattern
`timestamp - sender: content` (an `entry`, with `sender = none` for
conversation metadata lines) or it does not (a `continuation`). -/
inductive ExportLine where
  | entry (timestamp : ℚ) (sender : Option String) (content : String)
  | continuation (text : String)
deriving DecidableEq, Repr

/-- `ParseError` carrying a line index (§4.1, §7). -/
structure ParseError where
  line : ℕ
deriving DecidableEq, Repr

/-- The "message deleted" marker recognised by the parser (README: marker
"Pesan ini telah dihapus"). -/
def deletedMarker : String := "Pesan ini telah dihapus"

/-- The media-placeholder marker recognised by the parser (WhatsApp export). -/
def mediaMarker : String := "<Media omitted>"

/-- A message under construction: a line-start entry together with the
continuation lines merged into its content. -/
structure RawMsg where
  timestamp : ℚ
  sender : Option String
  content : String
deriving DecidableEq, Repr

/-- Modelled from the spec: continuation lines are appended (with a newline)
to the previous message's content; a continuation with no previous
line-start entry cannot be assigned a timestamp and fails the whole parse
(§4.1).  The accumulator holds the raw messages in reverse order. -/
def groupLines : List ExportLine → List RawMsg → Except ParseError (List RawMsg)
  | [], acc => .ok acc.reverse
  | .entry t s c :: rest, acc => groupLines rest (⟨t, s, c⟩ :: acc)
  | .continuation txt :: rest, r :: acc =>
      groupLines rest ({ r with content := r.content ++ "\n" ++ txt } :: acc)
  | .continuation _ :: _, [] => .error ⟨0⟩

/-- Modelled from the spec: finalize one raw message at position `i` of the
final parse order (§4.1): the deleted marker sets `is_deleted` and clears
content, the media marker sets `has_media` and `message_type = media`,
sender-less lines are `system`, word count is whitespace tokenization
(0 for deleted/media-only messages), and the sequence number is `i`. -/
def mkMessage (i : ℕ) (r : RawMsg) : Message :=
  let isDel := r.content = deletedMarker
  let isMedia := r.content = mediaMarker
  { sender := r.sender.getD ""
    content := if isDel then none else some r.content
    timestamp := r.timestamp
    sequenceNumber := i
    messageType :=
      if r.sender = none then .system else if isMedia then .media else .text
    isDeleted := isDel
    wordCount :=
      if isDel ∨ isMedia then 0
      else ((r.content.splitOn " ").filter (fun w => w ≠ "")).length
    hasMedia := isMedia }

/-- Modelled from the spec: the Export Parser (§4.1).  Sequence numbers are
assigned in final parse order, starting at 0, with no gaps. -/
def parseExport (lines : List ExportLine) : Except ParseError (List Message) :=
  (groupLines lines []).map (fun raws => raws.enum.map (fun p => mkMessage p.1 p.2))

theorem parseExport_ok_eq {lines : List ExportLine} {msgs : List Message}
    (h : parseExport lines = .ok msgs) :
    ∃ raws : List RawMsg, msgs = raws.enum.map (fun p => mkMessage p.1 p.2) := by
  unfold parseExport at h
  cases hg : groupLines lines [] with
  | ok raws =>
      refine ⟨raws, ?_⟩
      rw [hg] at h
      simpa [Except.map] using h.symm
  | error e =>
      rw [hg] at h
      simp [Except.map] at h

/-- C2: for every successfully parsed session, the sequence numbers of its
messages are dense and strictly increasing: the message at position `i`
carries sequence number `i` (so they start at 0, each successor is the
predecessor plus one, and there are no duplicates and no skips). -/
theorem seq_numbers_dense {lines : List ExportLine} {msgs : List Message}
    (h : parseExport lines = .ok msgs) :
    (∀ (i : ℕ) (hi : i < msgs.length), (msgs.get ⟨i, hi⟩).sequenceNumber = i) ∧
      (∀ (i j : ℕ) (hi : i < msgs.length) (hj : j < msgs.length), i < j →
        (msgs.get ⟨i, hi⟩).sequenceNumber < (msgs.get ⟨j, hj⟩).sequenceNumber) := by
  obtain ⟨raws, rfl⟩ := parseExport_ok_eq h
  constructor
  · intro i hi
    have hlen : i < raws.enum.length := by simpa using hi
    simp [List.getElem_map, mkMessage]
  · intro i j hi hj hij
    have h1 : ((raws.enum.map (fun p => mkMessage p.1 p.2)).get ⟨i, hi⟩).sequenceNumber = i := by
      simp [List.getElem_map, mkMessage]
    have h2 : ((raws.enum.map (fun p => mkMessage p.1 p.2)).get ⟨j, hj⟩).sequenceNumber = j := by
      simp [List.getElem_map, mkMessage]
    omega

/-- A two-message demo export used to instantiate parser theorems. -/
def demoLines : List ExportLine :=
  [ .entry 0 (some "Alice") "halo"
  , .continuation "apa kabar"
  , .entry 5 (some "Budi") "baik" ]

/-- The messages that `demoLines` parses to. -/
def demoParsed : List Message := (parseExport demoLines).toOption.getD []

theorem seq_numbers_dense_witness :
    parseExport demoLines = .ok demoParsed ∧
      (demoParsed.get ⟨1, by decide⟩).sequenceNumber = 1 :=
  ⟨rfl, (@seq_numbers_dense demoLines demoParsed rfl).1 1 (by decide)⟩

/-- Detection types of §4.2, in priority order
`explicit_deletion > time_anomaly > context_mismatch > pattern_break`. -/
inductive DetType where
  | explicitDeletion
  | timeAnomaly
  | contextMismatch
  | patternBreak
deriving DecidableEq, Repr

/-- A candidate discontinuity, mirroring the `gaps` table of
`database/schema.sql`: anchor sequence numbers, elapsed seconds, nullable
expected-missing count, primary detection type, contributing types,
suspicion score, and the context snapshots.  The token-set similarity at
the boundary is kept as a stored signal so that the scorer is a function
of the Gap alone. -/
structure Gap where
  beforeSeq : ℕ
  afterSeq : ℕ
  elapsed : ℚ
  expectedMessages : Option ℤ
  detectionType : DetType
  types : List DetType
  similarity : ℚ
  contextBefore : List Message
  contextAfter : List Message
  suspicionScore : ℚ
deriving DecidableEq, Repr

/-- Modelled from the spec: Gap Detector thresholds (§4.2, §6): time-anomaly
factor and absolute floor, context-mismatch similarity threshold, the
"short" elapsed bound for context mismatch, and the context window size. -/
structure DetectConfig where
  timeFactor : ℚ
  timeFloor : ℚ
  simThreshold : ℚ
  shortThreshold : ℚ
  windowSize : ℕ
deriving DecidableEq, Repr

/-- Default detector thresholds (factor 5, floor 30 minutes). -/
def defaultDetectConfig : DetectConfig :=
  { timeFactor := 5, timeFloor := 1800, simThreshold := 0.3,
    shortThreshold := 600, windowSize := 3 }

/-- Median of a list of rationals; `none` when fewer than 2 values are
available (§4.2: the median is undefined with fewer than 2 intervals). -/
def medianOf (l : List ℚ) : Option ℚ :=
  if l.length < 2 then none
  else
    let s := l.insertionSort (fun a b => a ≤ b)
    let n := l.length
    if n % 2 = 1 then some (s.getD (n / 2) 0)
    else some ((s.getD (n / 2 - 1) 0 + s.getD (n / 2) 0) / 2)

/-- Adjacent pairs of the message sequence whose two members are both
non-system (the boundaries of §4.2; system messages are excluded from
gap-timing calculations). -/
def nonSystemBoundaries (msgs : List Message) : List (Message × Message) :=
  (msgs.zip msgs.tail).filter
    (fun p => p.1.messageType ≠ MsgType.system ∧ p.2.messageType ≠ MsgType.system)

/-- Modelled from the spec: the median inter-message interval, computed once
per session over all non-system boundaries (§4.2). -/
def sessionMedian (msgs : List Message) : Option ℚ :=
  medianOf ((nonSystemBoundaries msgs).map (fun p => p.2.timestamp - p.1.timestamp))

/-- The set of whitespace tokens occurring in the contents of a window of
messages (bag-of-words support for the §4.2 token-set overlap). -/
def tokenSet (msgs : List Message) : Finset String :=
  (((msgs.filterMap Message.content).map (fun c => c.splitOn " ")).flatten.filter
    (fun w => w ≠ "")).toFinset

/-- Jaccard token-set overlap of §4.2; two empty windows count as fully
similar. -/
def jaccard (a b : Finset String) : ℚ :=
  if (a ∪ b).card = 0 then 1 else ((a ∩ b).card : ℚ) / ((a ∪ b).card : ℚ)

/-- Modelled from the spec: the detection types satisfied at one boundary
(§4.2), listed in priority order.  `explicit_deletion`: the later message's
deleted flag is set.  `time_anomaly`: elapsed time exceeds `median * factor`
and the absolute floor.  `context_mismatch`: the window similarity falls
below the threshold while the elapsed time is still short.  `pattern_break`:
the same sender speaks twice with no intervening reply. -/
def detTypesAt (cfg : DetectConfig) (median : Option ℚ) (sim : ℚ)
    (a b : Message) : List DetType :=
  let elapsed := b.timestamp - a.timestamp
  (if b.isDeleted then [DetType.explicitDeletion] else []) ++
  (match median with
   | none => []
   | some m =>
       if m * cfg.timeFactor < elapsed ∧ cfg.timeFloor < elapsed
       then [DetType.timeAnomaly] else []) ++
  (if sim < cfg.simThreshold ∧ elapsed ≤ cfg.shortThreshold
   then [DetType.contextMismatch] else []) ++
  (if b.sender = a.sender then [DetType.patternBreak] else [])

/-- Modelled from the spec: the expected-missing-message count (§4.2):
`round(elapsed_seconds / median) - 1`, clamped to be nonnegative, and null
when the median is undefined. -/
def expectedCount (median : Option ℚ) (elapsed : ℚ) : Option ℤ :=
  median.map (fun m => max 0 (round (elapsed / m) - 1))

/-- The snapshot of at most `windowSize` messages immediately before the
boundary between positions `i` and `i + 1` (the later anchor excluded). -/
def ctxBeforeAt (cfg : DetectConfig) (msgs : List Message) (i : ℕ) : List Message :=
  (msgs.take (i + 1)).drop (i + 1 - cfg.windowSize)

/-- The snapshot of at most `windowSize` messages from the boundary on. -/
def ctxAfterAt (cfg : DetectConfig) (msgs : List Message) (i : ℕ) : List Message :=
  (msgs.drop (i + 1)).take cfg.windowSize

/-- Token-set overlap between the two context windows at boundary `i`
(§4.2: Jaccard over bag-of-words, no external model call). -/
def simAt (cfg : DetectConfig) (msgs : List Message) (i : ℕ) : ℚ :=
  jaccard (tokenSet (ctxBeforeAt cfg msgs i)) (tokenSet (ctxAfterAt cfg msgs i))

/-- Modelled from the spec: evaluate the boundary between `msgs[i]` and
`msgs[i+1]` (§4.2): compute the window similarity, the satisfied detection
types, and, when at least one type fires, produce the Gap with the
highest-priority type as primary and the context snapshots attached.
The suspicion score is filled in later by the scorer. -/
def mkGapAt (cfg : DetectConfig) (median : Option ℚ) (msgs : List Message)
    (i : ℕ) (a b : Message) : Option Gap :=
  match detTypesAt cfg median (simAt cfg msgs i) a b with
  | [] => none
  | primary :: restTypes =>
      some { beforeSeq := a.sequenceNumber
             afterSeq := b.sequenceNumber
             elapsed := b.timestamp - a.timestamp
             expectedMessages := expectedCount median (b.timestamp - a.timestamp)
             detectionType := primary
             types := primary :: restTypes
             similarity := simAt cfg msgs i
             contextBefore := ctxBeforeAt cfg msgs i
             contextAfter := ctxAfterAt cfg msgs i
             suspicionScore := 0 }

/-- Modelled from the spec: the Gap Detector (§4.2): every adjacent pair of
non-system messages is a boundary, each detection type is evaluated there
independently, and one Gap is created per qualifying boundary. -/
def detectGaps (cfg : DetectConfig) (msgs : List Message) : List Gap :=
  (msgs.zip msgs.tail).enum.filterMap
    (fun p =>
      if p.2.1.messageType ≠ MsgType.system ∧ p.2.2.messageType ≠ MsgType.system
      then mkGapAt cfg (sessionMedian msgs) msgs p.1 p.2.1 p.2.2
      else none)

theorem mkGapAt_fields {cfg : DetectConfig} {median : Option ℚ}
    {msgs : List Message} {i : ℕ} {a b : Message} {g : Gap}
    (h : mkGapAt cfg median msgs i a b = some g) :
    g.beforeSeq = a.sequenceNumber ∧ g.afterSeq = b.sequenceNumber ∧
      g.elapsed = b.timestamp - a.timestamp ∧
      g.expectedMessages = expectedCount median (b.timestamp - a.timestamp) := by
  unfold mkGapAt at h
  split at h
  · cases h
  · injection h with h
    subst h
    exact ⟨rfl, rfl, rfl, rfl⟩

theorem detectGaps_mem_struct {cfg : DetectConfig} {msgs : List Message} {g : Gap}
    (hg : g ∈ detectGaps cfg msgs) :
    ∃ (i : ℕ) (hi : i + 1 < msgs.length),
      (msgs.get ⟨i, Nat.lt_of_succ_lt hi⟩).messageType ≠ MsgType.system ∧
      (msgs.get ⟨i + 1, hi⟩).messageType ≠ MsgType.system ∧
      mkGapAt cfg (sessionMedian msgs) msgs i
        (msgs.get ⟨i, Nat.lt_of_succ_lt hi⟩) (msgs.get ⟨i + 1, hi⟩) = some g := by
  unfold detectGaps at hg
  rw [List.mem_filterMap] at hg
  obtain ⟨p, hp, hsome⟩ := hg
  rw [List.mem_iff_get] at hp
  obtain ⟨⟨j, hj⟩, hpe⟩ := hp
  have hjz : j < (msgs.zip msgs.tail).length := by
    simpa [List.enum_length] using hj
  have hjm : j + 1 < msgs.length := by
    have hlz := List.length_zip msgs msgs.tail
    rw [List.length_tail] at hlz
    omega
  have hjt : j < msgs.tail.length := by
    rw [List.length_tail]; omega
  have hpe' : p = (j, (msgs.get ⟨j, Nat.lt_of_succ_lt hjm⟩, msgs.get ⟨j + 1, hjm⟩)) := by
    rw [← hpe]
    show (msgs.zip msgs.tail).enum[j] = _
    rw [List.getElem_enum, List.getElem_zip, List.getElem_tail]
    simp
  subst hpe'
  dsimp only at hsome
  by_cases hcond :
      (msgs.get ⟨j, Nat.lt_of_succ_lt hjm⟩).messageType ≠ MsgType.system ∧
        (msgs.get ⟨j + 1, hjm⟩).messageType ≠ MsgType.system
  · rw [if_pos hcond] at hsome
    exact ⟨j, hjm, hcond.1, hcond.2, hsome⟩
  · rw [if_neg hcond] at hsome
    cases hsome

/-- C6: for every Gap, the estimated missing-message count equals
`round(elapsed_seconds / median_inter_message_interval) - 1` clamped to be
nonnegative when the session median is defined, and is null when the
median is undefined. -/
theorem gap_expected_messages (cfg : DetectConfig) (msgs : List Message) (g : Gap)
    (hg : g ∈ detectGaps cfg msgs) :
    g.expectedMessages =
        (sessionMedian msgs).map (fun m => max 0 (round (g.elapsed / m) - 1)) ∧
      (sessionMedian msgs = none → g.expectedMessages = none) := by
  obtain ⟨i, hi, _, _, hmk⟩ := detectGaps_mem_struct hg
  obtain ⟨_, _, he, hexp⟩ := mkGapAt_fields hmk
  constructor
  · rw [hexp, expectedCount, ← he]
  · intro hnone
    rw [hexp, expectedCount, hnone]
    rfl

/-- `ChatView.jsx` lines 51-55: the frontend builds a gap lookup keyed
solely by `after_message_seq`, assigning each gap into a plain object in
list order, so a later gap with the same key would overwrite an earlier
one. -/
def gapsBySeq (gaps : List Gap) : ℕ → Option Gap :=
  gaps.foldl (fun m g => fun k => if k = g.afterSeq then some g else m k) (fun _ => none)

theorem gapsBySeq_foldl (l : List Gap) (m : ℕ → Option Gap) (k : ℕ) :
    (l.foldl (fun m g => fun k' => if k' = g.afterSeq then some g else m k') m) k =
      match l.reverse.find? (fun g => k == g.afterSeq) with
      | some g => some g
      | none => m k := by
  induction l generalizing m with
  | nil => simp
  | cons a t ih =>
      rw [List.foldl_cons, ih, List.reverse_cons, List.find?_append]
      cases hf : t.reverse.find? (fun g => k == g.afterSeq) with
      | some g => simp
      | none =>
          by_cases hk : k = a.afterSeq
          · simp [hk, List.find?]
          · have hkb : (k == a.afterSeq) = false := by simpa using hk
            simp [List.find?, hkb, Option.orElse]
            exact fun h => absurd h hk

theorem gapsBySeq_lookup (l : List Gap)
    (hinj : ∀ g₁ ∈ l, ∀ g₂ ∈ l, g₁.afterSeq = g₂.afterSeq → g₁ = g₂)
    (g : Gap) (hg : g ∈ l) : gapsBySeq l g.afterSeq = some g := by
  unfold gapsBySeq
  rw [gapsBySeq_foldl]
  cases hf : l.reverse.find? (fun x => g.afterSeq == x.afterSeq) with
  | none =>
      exfalso
      have hall := List.find?_eq_none.mp hf g (by simpa using hg)
      simp at hall
  | some x =>
      have hx1 : x ∈ l := by
        have := List.mem_of_find?_eq_some hf
        simpa using this
      have hx2 : g.afterSeq = x.afterSeq := by
        have := List.find?_some hf
        simpa using this
      have hgx := hinj g hg x hx1 hx2
      simp [← hgx]

/-- The parser invariant on a stored message sequence: the message at
position `i` carries sequence number `i`. -/
def SeqDense (msgs : List Message) : Prop :=
  ∀ (i : ℕ) (hi : i < msgs.length), (msgs.get ⟨i, hi⟩).sequenceNumber = i

instance (msgs : List Message) : Decidable (SeqDense msgs) := by
  unfold SeqDense
  exact Nat.decidableBallLT msgs.length _

/-- C5: every detected Gap is anchored between two adjacent sequence numbers
(`after_message_seq = before_message_seq + 1`); distinct gaps of one
analysis run never share an `after_message_seq`; consequently the UI lookup
keyed solely by `after_message_seq` recovers every gap. -/
theorem gap_anchors_adjacent (cfg : DetectConfig) (msgs : List Message)
    (hd : SeqDense msgs) :
    (∀ g ∈ detectGaps cfg msgs, g.afterSeq = g.beforeSeq + 1) ∧
      (∀ g₁ ∈ detectGaps cfg msgs, ∀ g₂ ∈ detectGaps cfg msgs,
        g₁.afterSeq = g₂.afterSeq → g₁ = g₂) ∧
      (∀ g ∈ detectGaps cfg msgs, gapsBySeq (detectGaps cfg msgs) g.afterSeq = some g) := by
  have hafter : ∀ g ∈ detectGaps cfg msgs,
      ∃ (i : ℕ) (hi : i + 1 < msgs.length),
        g.beforeSeq = i ∧ g.afterSeq = i + 1 ∧
        mkGapAt cfg (sessionMedian msgs) msgs i
          (msgs.get ⟨i, Nat.lt_of_succ_lt hi⟩) (msgs.get ⟨i + 1, hi⟩) = some g := by
    intro g hg
    obtain ⟨i, hi, _, _, hmk⟩ := detectGaps_mem_struct hg
    obtain ⟨hb, ha, _, _⟩ := mkGapAt_fields hmk
    exact ⟨i, hi, hb.trans (hd i (Nat.lt_of_succ_lt hi)),
      ha.trans (hd (i + 1) hi), hmk⟩
  have hinj : ∀ g₁ ∈ detectGaps cfg msgs, ∀ g₂ ∈ detectGaps cfg msgs,
      g₁.afterSeq = g₂.afterSeq → g₁ = g₂ := by
    intro g₁ hg₁ g₂ hg₂ heq
    obtain ⟨i₁, hi₁, _, ha₁, hmk₁⟩ := hafter g₁ hg₁
    obtain ⟨i₂, hi₂, _, ha₂, hmk₂⟩ := hafter g₂ hg₂
    have hii : i₁ = i₂ := by omega
    subst hii
    exact Option.some_injective _ (hmk₁.symm.trans hmk₂)
  refine ⟨?_, hinj, ?_⟩
  · intro g hg
    obtain ⟨i, hi, hb, ha, _⟩ := hafter g hg
    omega
  · intro g hg
    exact gapsBySeq_lookup _ hinj g hg

/-- Modelled from the spec: Suspicion Scorer configuration (§4.3): fixed
weights for the four sub-scores, the duration saturation factor `k`, the
fixed pattern and explicit constants, and the configured explicit-deletion
floor (§8: "score ≥ the configured explicit-deletion floor"). -/
structure ScoreConfig where
  wDuration : ℚ
  wContext : ℚ
  wPattern : ℚ
  wExplicit : ℚ
  k : ℚ
  patternConst : ℚ
  explicitConst : ℚ
  explicitFloor : ℚ
deriving DecidableEq, Repr

/-- Default scorer configuration: the explicit constant is near 1.0 and its
weighted contribution (0.8 * 0.9 = 0.72) alone reaches the "high" band. -/
def defaultScoreConfig : ScoreConfig :=
  { wDuration := 0.05, wContext := 0.1, wPattern := 0.05, wExplicit := 0.8,
    k := 5, patternConst := 0.7, explicitConst := 0.9, explicitFloor := 0.6 }

/-- A well-formed scorer configuration: nonnegative weights summing to at
most 1, and normalized fixed constants (§4.3: the composite is a weighted
combination of independently normalized sub-scores). -/
def ValidConfig (cfg : ScoreConfig) : Prop :=
  0 ≤ cfg.wDuration ∧ 0 ≤ cfg.wContext ∧ 0 ≤ cfg.wPattern ∧ 0 ≤ cfg.wExplicit ∧
  cfg.wDuration + cfg.wContext + cfg.wPattern + cfg.wExplicit ≤ 1 ∧
  0 ≤ cfg.patternConst ∧ cfg.patternConst ≤ 1 ∧
  0 ≤ cfg.explicitConst ∧ cfg.explicitConst ≤ 1

instance (cfg : ScoreConfig) : Decidable (ValidConfig cfg) := by
  unfold ValidConfig
  infer_instance

/-- Normalization clamp onto the unit interval. -/
def clamp01 (x : ℚ) : ℚ := min 1 (max 0 x)

theorem clamp01_nonneg (x : ℚ) : 0 ≤ clamp01 x := by
  unfold clamp01
  have h1 : (0 : ℚ) ≤ max 0 x := le_max_left 0 x
  have h2 : (0 : ℚ) ≤ 1 := by norm_num
  exact le_min h2 h1

theorem clamp01_le_one (x : ℚ) : clamp01 x ≤ 1 := min_le_left 1 _

/-- Modelled from the spec: duration sub-score (§4.3): a monotonically
increasing, saturating function of elapsed time relative to the session
median, `min(1, elapsed / (k * median))`, normalized; 0 when the median is
undefined. -/
def durationSub (cfg : ScoreConfig) (median : Option ℚ) (elapsed : ℚ) : ℚ :=
  match median with
  | none => 0
  | some m => clamp01 (elapsed / (cfg.k * m))

/-- Modelled from the spec: context sub-score (§4.3): `1 - similarity` when
`context_mismatch` is among the contributing types, else 0. -/
def contextSub (g : Gap) : ℚ :=
  if DetType.contextMismatch ∈ g.types then clamp01 (1 - g.similarity) else 0

/-- Modelled from the spec: pattern sub-score (§4.3): a fixed constant when
`pattern_break` is present, else 0. -/
def patternSub (cfg : ScoreConfig) (g : Gap) : ℚ :=
  if DetType.patternBreak ∈ g.types then cfg.patternConst else 0

/-- Modelled from the spec: explicit sub-score (§4.3): a fixed constant
(near 1.0) when `explicit_deletion` is present, else 0. -/
def explicitSub (cfg : ScoreConfig) (g : Gap) : ℚ :=
  if DetType.explicitDeletion ∈ g.types then cfg.explicitConst else 0

/-- Modelled from the spec: the composite suspicion score (§4.3), a weighted
combination of the four independently normalized sub-scores; a pure
function of the Gap's stored signals and the session median. -/
def scoreGap (cfg : ScoreConfig) (median : Option ℚ) (g : Gap) : ℚ :=
  cfg.wDuration * durationSub cfg median g.elapsed +
  cfg.wContext * contextSub g +
  cfg.wPattern * patternSub cfg g +
  cfg.wExplicit * explicitSub cfg g

/-- Modelled from the spec: the ordered reason list (§4.3): one template
string per non-zero sub-score, ordered by sub-score magnitude descending
(a stable sort on the descending order of the sub-scores). -/
def reasonsFor (cfg : ScoreConfig) (median : Option ℚ) (g : Gap) : List String :=
  let subs : List (String × ℚ) :=
    [ ("unusually long silence for this conversation", cfg.wDuration * durationSub cfg median g.elapsed)
    , ("topic shifts abruptly across the boundary", cfg.wContext * contextSub g)
    , ("turn-taking pattern is broken", cfg.wPattern * patternSub cfg g)
    , ("a message was explicitly deleted here", cfg.wExplicit * explicitSub cfg g) ]
  ((subs.filter (fun p => p.2 ≠ 0)).insertionSort (fun p q => q.2 ≤ p.2)).map
    (fun p => p.1)

/-- Modelled from the spec: the Suspicion Scorer's full output (§4.3):
the composite score together with the ordered reason list. -/
def scoreWithReasons (cfg : ScoreConfig) (median : Option ℚ) (g : Gap) :
    ℚ × List String :=
  (scoreGap cfg median g, reasonsFor cfg median g)

/-- `GapCard.jsx` lines 2-6: the UI banding function; `'high'` exactly when
the score is at least 0.7, `'medium'` at least 0.4, `'low'` otherwise. -/
def getSuspicionLevel (score : ℚ) : String :=
  if 0.7 ≤ score then "high" else if 0.4 ≤ score then "medium" else "low"

theorem durationSub_bounds (cfg : ScoreConfig) (median : Option ℚ) (e : ℚ) :
    0 ≤ durationSub cfg median e ∧ durationSub cfg median e ≤ 1 := by
  unfold durationSub
  cases median with
  | none => norm_num
  | some m => exact ⟨clamp01_nonneg _, clamp01_le_one _⟩

theorem contextSub_bounds (g : Gap) : 0 ≤ contextSub g ∧ contextSub g ≤ 1 := by
  unfold contextSub
  split
  · exact ⟨clamp01_nonneg _, clamp01_le_one _⟩
  · norm_num

theorem patternSub_bounds (cfg : ScoreConfig) (g : Gap) (hv : ValidConfig cfg) :
    0 ≤ patternSub cfg g ∧ patternSub cfg g ≤ 1 := by
  obtain ⟨_, _, _, _, _, hp0, hp1, _, _⟩ := hv
  unfold patternSub
  split
  · exact ⟨hp0, hp1⟩
  · norm_num

theorem explicitSub_bounds (cfg : ScoreConfig) (g : Gap) (hv : ValidConfig cfg) :
    0 ≤ explicitSub cfg g ∧ explicitSub cfg g ≤ 1 := by
  obtain ⟨_, _, _, _, _, _, _, he0, he1⟩ := hv
  unfold explicitSub
  split
  · exact ⟨he0, he1⟩
  · norm_num

/-- C4: for every Gap, under any well-formed configuration the suspicion
score lies in [0, 1]; hence the UI percentage `round(score * 100)` lies
between 0 and 100 and the suspicion-bar width `score * 100` never exceeds
100. -/
theorem score_in_unit_interval (cfg : ScoreConfig) (median : Option ℚ) (g : Gap)
    (hv : ValidConfig cfg) :
    0 ≤ scoreGap cfg median g ∧ scoreGap cfg median g ≤ 1 ∧
      (0 : ℤ) ≤ round (scoreGap cfg median g * 100) ∧
      round (scoreGap cfg median g * 100) ≤ 100 ∧
      scoreGap cfg median g * 100 ≤ 100 := by
  obtain ⟨hd0, hd1⟩ := durationSub_bounds cfg median g.elapsed
  obtain ⟨hc0, hc1⟩ := contextSub_bounds g
  obtain ⟨hp0, hp1⟩ := patternSub_bounds cfg g hv
  obtain ⟨he0, he1⟩ := explicitSub_bounds cfg g hv
  obtain ⟨hw1, hw2, hw3, hw4, hsum, _, _, _, _⟩ := hv
  have h0 : 0 ≤ scoreGap cfg median g := by
    unfold scoreGap
    have := mul_nonneg hw1 hd0
    have := mul_nonneg hw2 hc0
    have := mul_nonneg hw3 hp0
    have := mul_nonneg hw4 he0
    linarith
  have h1 : scoreGap cfg median g ≤ 1 := by
    unfold scoreGap
    have t1 : cfg.wDuration * durationSub cfg median g.elapsed ≤ cfg.wDuration :=
      mul_le_of_le_one_right hw1 hd1
    have t2 : cfg.wContext * contextSub g ≤ cfg.wContext :=
      mul_le_of_le_one_right hw2 hc1
    have t3 : cfg.wPattern * patternSub cfg g ≤ cfg.wPattern :=
      mul_le_of_le_one_right hw3 hp1
    have t4 : cfg.wExplicit * explicitSub cfg g ≤ cfg.wExplicit :=
      mul_le_of_le_one_right hw4 he1
    linarith
  refine ⟨h0, h1, ?_, ?_, by linarith⟩
  · rw [round_eq]
    rw [Int.le_floor]
    push_cast
    linarith
  · rw [round_eq]
    have hle : scoreGap cfg median g * 100 + 1 / 2 ≤ (201 : ℚ) / 2 := by linarith
    calc ⌊scoreGap cfg median g * 100 + 1 / 2⌋ ≤ ⌊(201 : ℚ) / 2⌋ :=
          Int.floor_le_floor hle
      _ = 100 := by
          rw [Int.floor_eq_iff]
          constructor <;> norm_num

/-- A concrete gap used to instantiate scorer theorems: both
`explicit_deletion` and `pattern_break` contribute. -/
def demoGap : Gap :=
  { beforeSeq := 1, afterSeq := 2, elapsed := 5400,
    expectedMessages := some 1079,
    detectionType := DetType.explicitDeletion,
    types := [DetType.explicitDeletion, DetType.patternBreak],
    similarity := 1, contextBefore := [], contextAfter := [],
    suspicionScore := 0 }

theorem score_in_unit_interval_witness :
    ValidConfig defaultScoreConfig ∧
      0 ≤ scoreGap defaultScoreConfig (some 5) demoGap ∧
      scoreGap defaultScoreConfig (some 5) demoGap ≤ 1 :=
  ⟨by with_unfolding_all decide,
    (score_in_unit_interval defaultScoreConfig (some 5) demoGap
      (by with_unfolding_all decide)).1,
    (score_in_unit_interval defaultScoreConfig (some 5) demoGap
      (by with_unfolding_all decide)).2.1⟩

/-- C1: for every Gap with `explicit_deletion` among its contributing
detection types, under any well-formed configuration whose weighted
explicit contribution reaches both the configured explicit-deletion floor
and the 0.7 "high" band threshold (as §4.3 requires: the explicit
sub-score is a fixed constant near 1.0 and explicit deletion alone places
the gap in the "high" band), the suspicion score is at least the
configured floor and `getSuspicionLevel` classifies the gap as "high". -/
theorem explicit_deletion_high (cfg : ScoreConfig) (median : Option ℚ) (g : Gap)
    (hv : ValidConfig cfg)
    (hfloor : cfg.explicitFloor ≤ cfg.wExplicit * cfg.explicitConst)
    (hhigh : 0.7 ≤ cfg.wExplicit * cfg.explicitConst)
    (hmem : DetType.explicitDeletion ∈ g.types) :
    cfg.explicitFloor ≤ scoreGap cfg median g ∧
      getSuspicionLevel (scoreGap cfg median g) = "high" := by
  obtain ⟨hd0, _⟩ := durationSub_bounds cfg median g.elapsed
  obtain ⟨hc0, _⟩ := contextSub_bounds g
  obtain ⟨hp0, _⟩ := patternSub_bounds cfg g hv
  obtain ⟨hw1, hw2, hw3, hw4, hsum, _, _, _, _⟩ := hv
  have hexp : explicitSub cfg g = cfg.explicitConst := by
    unfold explicitSub
    rw [if_pos hmem]
  have hge : cfg.wExplicit * cfg.explicitConst ≤ scoreGap cfg median g := by
    unfold scoreGap
    rw [hexp]
    have := mul_nonneg hw1 hd0
    have := mul_nonneg hw2 hc0
    have := mul_nonneg hw3 hp0
    linarith
  constructor
  · linarith
  · unfold getSuspicionLevel
    rw [if_pos (by linarith)]

theorem explicit_deletion_high_witness :
    ValidConfig defaultScoreConfig ∧
      DetType.explicitDeletion ∈ demoGap.types ∧
      defaultScoreConfig.explicitFloor ≤ scoreGap defaultScoreConfig (some 5) demoGap ∧
      getSuspicionLevel (scoreGap defaultScoreConfig (some 5) demoGap) = "high" :=
  ⟨by with_unfolding_all decide, by decide,
    (explicit_deletion_high defaultScoreConfig (some 5) demoGap
      (by with_unfolding_all decide) (by with_unfolding_all decide)
      (by with_unfolding_all decide) (by decide)).1,
    (explicit_deletion_high defaultScoreConfig (some 5) demoGap
      (by with_unfolding_all decide) (by with_unfolding_all decide)
      (by with_unfolding_all decide) (by decide)).2⟩

/-- C7: the Suspicion Scorer is deterministic: two runs on equal Gap
signals and the same session context produce the same score and the same
ordered reason list. -/
theorem scorer_deterministic (cfg : ScoreConfig) (median : Option ℚ)
    (g₁ g₂ : Gap) (h : g₁ = g₂) :
    (scoreWithReasons cfg median g₁).1 = (scoreWithReasons cfg median g₂).1 ∧
      (scoreWithReasons cfg median g₁).2 = (scoreWithReasons cfg median g₂).2 := by
  subst h
  exact ⟨rfl, rfl⟩

theorem scorer_deterministic_witness :
    (scoreWithReasons defaultScoreConfig (some 5) demoGap).1 =
        (scoreWithReasons defaultScoreConfig (some 5) demoGap).1 ∧
      (scoreWithReasons defaultScoreConfig (some 5) demoGap).2 =
        (scoreWithReasons defaultScoreConfig (some 5) demoGap).2 :=
  scorer_deterministic defaultScoreConfig (some 5) demoGap demoGap rfl

/-- Verification status of an inference: `pending | confirmed | rejected`,
defaulting to `pending` (schema column `verified`). -/
inductive VerifStatus where
  | pending
  | confirmed
  | rejected
deriving DecidableEq, Repr

/-- A hypothesis for one Gap, mirroring the `inferences` table of
`database/schema.sql`. -/
structure Inference where
  predictedIntent : String
  predictedContent : Option String
  predictedSender : Option String
  confidenceScore : ℚ
  contextAnchors : List String
  modelUsed : String
  reasoning : Option String
  hallucinationFlags : List String
  verified : VerifStatus
deriving DecidableEq, Repr

/-- The persisted inferences, keyed by gap identifier. -/
abbrev InferStore := List (String × Inference)

/-- Modelled from the spec: persisting an Inference supersedes any prior
inference for the same Gap (§4.4 step 4: "Persist the Inference,
superseding any prior inference for the same Gap"; §3: "a new inference
request supersedes (does not append to) a prior one"). -/
def persistInference (s : InferStore) (gapId : String) (inf : Inference) : InferStore :=
  (gapId, inf) :: s.filter (fun p => p.1 ≠ gapId)

/-- The current inference stored for a gap, if any. -/
def currentInference (s : InferStore) (gapId : String) : Option Inference :=
  (s.find? (fun p => p.1 = gapId)).map Prod.snd

/-- How many stored inferences a gap has. -/
def inferenceCount (s : InferStore) (gapId : String) : ℕ :=
  (s.filter (fun p => p.1 = gapId)).length

theorem filter_eq_after_filter_ne (s : InferStore) (g : String) :
    (s.filter (fun p => p.1 ≠ g)).filter (fun p => p.1 = g) = [] := by
  induction s with
  | nil => rfl
  | cons a t ih =>
      by_cases h : a.1 = g
      · simp [h, ih]
      · simp [h, List.filter_cons, ih]

/-- C3: at most one current Inference exists per Gap: persisting an
inference for a gap leaves exactly one stored inference for that gap,
namely the one just persisted — so after two `infer` calls on the same gap
(over any prior store) exactly the second call's result persists, never
two. -/
theorem inference_superseded (s : InferStore) (gapId : String) (i₁ i₂ : Inference) :
    (∀ s' : InferStore, ∀ i : Inference,
        inferenceCount (persistInference s' gapId i) gapId = 1 ∧
        currentInference (persistInference s' gapId i) gapId = some i) ∧
      inferenceCount (persistInference (persistInference s gapId i₁) gapId i₂) gapId = 1 ∧
      currentInference (persistInference (persistInference s gapId i₁) gapId i₂) gapId
        = some i₂ := by
  have hgen : ∀ s' : InferStore, ∀ i : Inference,
      inferenceCount (persistInference s' gapId i) gapId = 1 ∧
      currentInference (persistInference s' gapId i) gapId = some i := by
    intro s' i
    constructor
    · unfold inferenceCount persistInference
      rw [List.filter_cons]
      simp [filter_eq_after_filter_ne]
    · unfold currentInference persistInference
      rw [List.find?_cons]
      simp
  exact ⟨hgen, (hgen (persistInference s gapId i₁) i₂).1,
    (hgen (persistInference s gapId i₁) i₂).2⟩

/-- `UploadZone.jsx` lines 7-15 (`handleDrop`): the first dropped file
triggers an upload only when its name ends with ".txt". -/
def handleDrop (files : List String) : Option String :=
  match files.head? with
  | some f => if f.endsWith ".txt" then some f else none
  | none => none

/-- `UploadZone.jsx` lines 17-22 (`handleChange`): the first selected file
triggers an upload whenever it exists, with no name check. -/
def handleChange (files : List String) : Option String := files.head?

/-- C8: the two upload entry paths apply different acceptance conditions:
a dropped file uploads exactly when its name ends with ".txt", while a
file chosen through the file input uploads for any file name (for example
"chat.csv" is refused by drop but accepted by the file input). -/
theorem upload_paths_differ :
    (∀ name : String,
        (handleDrop [name] = some name ↔ name.endsWith ".txt" = true) ∧
        handleChange [name] = some name) ∧
      handleDrop ["chat.csv"] = none ∧
      handleChange ["chat.csv"] = some "chat.csv" := by
  refine ⟨?_, by with_unfolding_all decide, by with_unfolding_all decide⟩
  intro name
  constructor
  · by_cases h : name.endsWith ".txt"
    · simp [handleDrop, h]
    · simp [handleDrop, h]
  · rfl

/-- One expression child of a JSX element: a string, a number, or a
nothing-rendering value (`null`, `false`, `undefined`). -/
inductive JsxChild where
  | text (s : String)
  | num (n : ℤ)
  | nullv
deriving DecidableEq, Repr

/-- React's child rendering: strings render verbatim, numbers render as
their decimal representation, and `null`-like children render as nothing. -/
def renderChild : JsxChild → String
  | .text s => s
  | .num n => toString n
  | .nullv => ""

/-- `GapCard.jsx` line 37: the value of the JS guard
`gap.expected_messages && template`: `null` stays `null`, `0` stays `0`
(both falsy), any other number selects the template string. -/
def gapCardMissingChild (em : Option ℤ) : JsxChild :=
  match em with
  | none => .nullv
  | some n => if n = 0 then .num 0 else .text (" | ~" ++ toString n ++ " missing")

/-- `GapCard.jsx` lines 35-38: the rendered info line of a gap card. -/
def gapCardInfoLine (timeGapSeconds : ℚ) (em : Option ℤ) : String :=
  toString (round (timeGapSeconds / 60)) ++ " min gap" ++
    renderChild (gapCardMissingChild em)

/-- `ChatView.jsx` lines 126-129: the value of the guard
`hasGapBefore.expected_messages && template` in the gap indicator. -/
def gapIndicatorChild (em : Option ℤ) : JsxChild :=
  match em with
  | none => .nullv
  | some n =>
      if n = 0 then .num 0
      else .text (" (~" ++ toString n ++ " messages missing)")

/-- `ChatView.jsx` lines 124-131: the rendered gap-indicator line. -/
def gapIndicatorLine (timeGapSeconds : ℚ) (em : Option ℤ) : String :=
  "Gap detected: " ++ toString (round (timeGapSeconds / 60)) ++ " min" ++
    renderChild (gapIndicatorChild em)

/-- C9 counterexample: for a 300-second gap, an expected-message estimate of
0 does not render identically to a null estimate: React renders the falsy
number `0` itself, so the two outputs differ. -/
theorem zero_estimate_rendering_differs :
    ¬ (gapCardInfoLine 300 (some 0) = gapCardInfoLine 300 none ∧
       gapIndicatorLine 300 (some 0) = gapIndicatorLine 300 none) := by
  with_unfolding_all decide

/-- C9 (amended): for every Gap whose estimate is 0, the missing-message
annotation string is omitted exactly as for a null estimate (the falsy
guard does not distinguish 0 from null), but the rendered output is not
identical to the null case: it is the null case's output with a literal
"0" appended, because React renders the numeric guard value. -/
theorem zero_estimate_omits_note_but_renders_zero (t : ℚ) :
    gapCardMissingChild (some 0) = .num 0 ∧
      gapCardMissingChild none = .nullv ∧
      gapCardInfoLine t (some 0) = gapCardInfoLine t none ++ "0" ∧
      gapIndicatorLine t (some 0) = gapIndicatorLine t none ++ "0" := by
  have h0 : toString (0 : ℤ) = "0" := rfl
  refine ⟨rfl, rfl, ?_, ?_⟩ <;>
    simp [gapCardInfoLine, gapIndicatorLine, renderChild, gapCardMissingChild,
      gapIndicatorChild, h0, String.append_empty]

/-- `ChatView.jsx` line 21: the URL the client requests a session's
messages with. -/
def messagesRequestUrl (sessionId : String) : String :=
  "/api/sessions/" ++ sessionId ++ "/messages?limit=500"

/-- Modelled from the spec: the backend messages endpoint is not under
`src/`; per the outbound persistence contract (§6: read operations keyed by
session, records read verbatim) it returns the session's messages in
sequence order, truncated to the requested limit. -/
def fetchSessionMessages (stored : List Message) (limit : ℕ) : List Message :=
  stored.take limit

/-- `ChatView.jsx`: the messages panel shows exactly the fetched list,
which the client requests with `limit=500`. -/
def displayedMessages (stored : List Message) : List Message :=
  fetchSessionMessages stored 500

/-- C10: the client requests at most 500 messages (`limit=500` in the
request URL), so a session with more than 500 stored messages has exactly
its first 500 displayed in the messages panel. -/
theorem messages_panel_truncated (sessionId : String) (stored : List Message)
    (h : 500 < stored.length) :
    messagesRequestUrl sessionId = "/api/sessions/" ++ sessionId ++ "/messages?limit=500" ∧
      displayedMessages stored = stored.take 500 ∧
      (displayedMessages stored).length = 500 := by
  refine ⟨rfl, rfl, ?_⟩
  simp [displayedMessages, fetchSessionMessages]
  omega

/-- A four-message demo session whose last message is explicitly deleted:
the detector finds exactly one gap there, with a defined session median. -/
def demoSession : List Message :=
  [ { sender := "Alice", content := none, timestamp := 0, sequenceNumber := 0,
      messageType := .text, isDeleted := false, wordCount := 0, hasMedia := false }
  , { sender := "Budi", content := none, timestamp := 5, sequenceNumber := 1,
      messageType := .text, isDeleted := false, wordCount := 0, hasMedia := false }
  , { sender := "Alice", content := none, timestamp := 10, sequenceNumber := 2,
      messageType := .text, isDeleted := false, wordCount := 0, hasMedia := false }
  , { sender := "Budi", content := none, timestamp := 15, sequenceNumber := 3,
      messageType := .text, isDeleted := true, wordCount := 0, hasMedia := false } ]

theorem gap_expected_messages_witness :
    ((detectGaps defaultDetectConfig demoSession).headD demoGap ∈
        detectGaps defaultDetectConfig demoSession) ∧
      ((detectGaps defaultDetectConfig demoSession).headD demoGap).expectedMessages =
        (sessionMedian demoSession).map
          (fun m => max 0 (round
            (((detectGaps defaultDetectConfig demoSession).headD demoGap).elapsed / m) - 1)) :=
  ⟨by with_unfolding_all decide,
    (gap_expected_messages defaultDetectConfig demoSession
      ((detectGaps defaultDetectConfig demoSession).headD demoGap)
      (by with_unfolding_all decide)).1⟩

theorem gap_anchors_adjacent_witness :
    SeqDense demoSession ∧
      ((detectGaps defaultDetectConfig demoSession).headD demoGap).afterSeq =
        ((detectGaps defaultDetectConfig demoSession).headD demoGap).beforeSeq + 1 :=
  ⟨by decide,
    (gap_anchors_adjacent defaultDetectConfig demoSession (by decide)).1
      ((detectGaps defaultDetectConfig demoSession).headD demoGap)
      (by with_unfolding_all decide)⟩

/-- A placeholder message record. -/
def fallbackMessage : Message :=
  { sender := "", content := none, timestamp := 0, sequenceNumber := 0,
    messageType := .text, isDeleted := false, wordCount := 0, hasMedia := false }

theorem messages_panel_truncated_witness :
    500 < (List.replicate 501 fallbackMessage).length ∧
      (displayedMessages (List.replicate 501 fallbackMessage)).length = 500 :=
  ⟨by simp,
    (messages_panel_truncated "s1" (List.replicate 501 fallbackMessage)
      (by simp)).2.2⟩

end ShadowTrace
